import Mathlib

/-!
Verification development for the faup978 adaptive state-reporting engine
(src/faup978_reporter.cc).  The reporter decision logic is embedded from the
source; the AgedField / AircraftState / ReportRecord data model, whose header
is not part of the two source files, is modelled from the specification
(sections 3 and 4.1 of spec.md).  Machine 64-bit unsigned subtraction is made
explicit with sub64.  Reading the value of a field that has never been set is,
following section 4.1 of the specification, an error condition: the evaluation
is therefore embedded in the Except monad and errors exactly at an unguarded
read of an unset field.
-/

set_option autoImplicit false

namespace Faup978

/-- Modelled from the spec: closed set of address qualifiers (spec section 3). -/
inductive AddressQualifier where
  | ADSB_ICAO
  | ADSB_OTHER
  | ADSR_OTHER
  | TISB_ICAO
  | TISB_TRACKFILE
  | VEHICLE
  | FIXED_BEACON
deriving DecidableEq, Repr

/-- Modelled from the spec: air/ground states; RESERVED is referenced at
src/faup978_reporter.cc line 130. -/
inductive AirGroundState where
  | AIRBORNE_SUBSONIC
  | AIRBORNE_SUPERSONIC
  | ON_GROUND
  | RESERVED
deriving DecidableEq, Repr

/-- Modelled from the spec: SIL supplement values mapped at
src/faup978_reporter.cc lines 220-223. -/
inductive SILSupplement where
  | PER_HOUR
  | PER_SAMPLE
deriving DecidableEq, Repr

/-- Modelled from the spec: emergency / priority status values mapped at
src/faup978_reporter.cc lines 281-288. -/
inductive EmergencyPriorityStatus where
  | NONE
  | GENERAL
  | MEDICAL
  | MINFUEL
  | NORDO
  | UNLAWFUL
  | DOWNED
deriving DecidableEq, Repr

/-- Modelled from the spec: autopilot mode indicator flags used at
src/faup978_reporter.cc lines 269-275. -/
structure ModeIndicators where
  autopilot : Bool := false
  vnav : Bool := false
  altitude_hold : Bool := false
  approach : Bool := false
  lnav : Bool := false
deriving DecidableEq, Repr

/-- Modelled from the spec (section 4.1): a timestamped optional value with a
last-updated and a last-changed timestamp.  A never-set field has no value and
zero timestamps. -/
structure AgedField (α : Type) where
  val : Option α := none
  updated : Nat := 0
  changed : Nat := 0
deriving DecidableEq, Repr

/-- Valid() is true once any value has been set. -/
def AgedField.Valid {α : Type} (f : AgedField α) : Bool :=
  f.val.isSome

/-- Value() with its precondition made explicit: reading an unset field is the
error condition of spec section 4.1. -/
def AgedField.valueE {α : Type} (f : AgedField α) : Except Unit α :=
  match f.val with
  | some v => .ok v
  | none => .error ()

/-- 64-bit unsigned subtraction with wraparound, as in the C++ uint64
arithmetic of the source. -/
def sub64 (a b : Nat) : Nat :=
  (a + (2 ^ 64 - b % 2 ^ 64)) % 2 ^ 64

/-- UpdateAge(now) = now - Updated() in 64-bit arithmetic (spec section 3). -/
def AgedField.UpdateAge {α : Type} (f : AgedField α) (now : Nat) : Nat :=
  sub64 now f.updated

/-- Modelled from the spec (section 3): the per-aircraft state snapshot read
by the reporter.  Real-valued fields of the original (track, headings, QNH,
containment radius, position) are modelled as integers; none of the claims
depends on their fractional part. -/
structure AircraftState where
  pressure_altitude : AgedField Int := {}
  geometric_altitude : AgedField Int := {}
  vertical_velocity_barometric : AgedField Int := {}
  vertical_velocity_geometric : AgedField Int := {}
  ground_speed : AgedField Int := {}
  true_track : AgedField Int := {}
  true_heading : AgedField Int := {}
  magnetic_heading : AgedField Int := {}
  airground_state : AgedField AirGroundState := {}
  flightplan_id : AgedField String := {}
  callsign : AgedField String := {}
  emergency : AgedField EmergencyPriorityStatus := {}
  selected_altitude_mcp : AgedField Int := {}
  selected_altitude_fms : AgedField Int := {}
  selected_heading : AgedField Int := {}
  mode_indicators : AgedField ModeIndicators := {}
  barometric_pressure_setting : AgedField Int := {}
  nic : AgedField Nat := {}
  nac_p : AgedField Nat := {}
  nac_v : AgedField Nat := {}
  sil : AgedField Nat := {}
  sil_supplement : AgedField SILSupplement := {}
  nic_baro : AgedField Nat := {}
  emitter_category : AgedField Nat := {}
  mops_version : AgedField Nat := {}
  horizontal_containment : AgedField Int := {}
  position : AgedField (Int × Int) := {}
  address_qualifier : AddressQualifier := .ADSB_ICAO
  address : Nat := 0
  last_message_time : Nat := 0
  messages : Nat := 0
deriving DecidableEq, Repr

/-- AddressKey = (qualifier, 24-bit address) (spec section 3). -/
abbrev AddressKey := AddressQualifier × Nat

/-- Modelled from the spec (section 3): per-key ledger record, created with
zeroed timestamps. -/
structure ReportRecord where
  report_time : Nat := 0
  slow_report_time : Nat := 0
  report_state : AircraftState := {}
deriving DecidableEq, Repr

/-- The zero-initialised record that operator[] creates for a new key. -/
def ReportRecord.init : ReportRecord := {}

/-- The report ledger, keyed by AddressKey. -/
abbrev Ledger := List (AddressKey × ReportRecord)

/-- Lookup of the first (unique) binding of a key. -/
def Ledger.find? : Ledger → AddressKey → Option ReportRecord
  | [], _ => none
  | (k2, r) :: t, k => if k2 = k then some r else Ledger.find? t k

/-- Update the binding of a key, inserting it when absent (operator[] and
assignment on std::map). -/
def Ledger.set : Ledger → AddressKey → ReportRecord → Ledger
  | [], k, r => [(k, r)]
  | (k2, r2) :: t, k, r => if k2 = k then (k, r) :: t else (k2, r2) :: Ledger.set t k r

/-- source_map of src/faup978_reporter.cc lines 173-179 with default value
between question marks. -/
def sourceOf : AddressQualifier → String
  | .ADSB_ICAO => "A"
  | .ADSB_OTHER => "A"
  | .ADSR_OTHER => "A"
  | .TISB_ICAO => "T"
  | .TISB_TRACKFILE => "T"
  | _ => "?"

/-- qualifier_map of src/faup978_reporter.cc lines 306-314. -/
def qualifierName : AddressQualifier → String
  | .ADSB_ICAO => "adsb_icao"
  | .ADSB_OTHER => "adsb_other"
  | .TISB_ICAO => "tisb_icao"
  | .TISB_TRACKFILE => "tisb_trackfile"
  | .VEHICLE => "vehicle"
  | .FIXED_BEACON => "fixed_beacon"
  | .ADSR_OTHER => "adsr_other"

/-- ICAO-addressed qualifiers, src/faup978_reporter.cc line 301. -/
def isIcao (q : AddressQualifier) : Bool :=
  decide (q = .ADSB_ICAO) || decide (q = .TISB_ICAO)

/-- airground_map of src/faup978_reporter.cc lines 231-235 with its default
value: every mapped state, ON_GROUND included, is labelled the same way. -/
def airGroundLabel : AirGroundState → String
  | .AIRBORNE_SUBSONIC => "A+"
  | .AIRBORNE_SUPERSONIC => "A+"
  | .ON_GROUND => "A+"
  | .RESERVED => "?"

/-- supplement_map of src/faup978_reporter.cc lines 220-223. -/
def silSupplementLabel : SILSupplement → String
  | .PER_HOUR => "perhour"
  | .PER_SAMPLE => "persample"

/-- emergency_map of src/faup978_reporter.cc lines 281-288. -/
def emergencyLabel : EmergencyPriorityStatus → String
  | .NONE => "none"
  | .GENERAL => "general"
  | .MEDICAL => "lifeguard"
  | .MINFUEL => "minfuel"
  | .NORDO => "nordo"
  | .UNLAWFUL => "unlawful"
  | .DOWNED => "downed"

/-- nav_modes formatting, src/faup978_reporter.cc lines 258-277. -/
def modeLabel (m : ModeIndicators) : String :=
  "\x7b" ++ String.intercalate " "
    ((if m.autopilot then ["autopilot"] else [])
      ++ (if m.vnav then ["vnav"] else [])
      ++ (if m.altitude_hold then ["althold"] else [])
      ++ (if m.approach then ["approach"] else [])
      ++ (if m.lnav then ["lnav"] else [])) ++ "\x7d"

/-- Uppercase hexadecimal digit. -/
def hexDigitU : Nat → String
  | 0 => "0"
  | 1 => "1"
  | 2 => "2"
  | 3 => "3"
  | 4 => "4"
  | 5 => "5"
  | 6 => "6"
  | 7 => "7"
  | 8 => "8"
  | 9 => "9"
  | 10 => "A"
  | 11 => "B"
  | 12 => "C"
  | 13 => "D"
  | 14 => "E"
  | _ => "F"

/-- Two-digit uppercase hexadecimal rendering, src/faup978_reporter.cc
line 213. -/
def twoHexU (n : Nat) : String :=
  hexDigitU (n / 16 % 16) ++ hexDigitU (n % 16)

/-- One coarse change-detection comparison, src/faup978_reporter.cc lines
102-109: each line guards on the validity of a pair of fields (operator bool)
and then reads the values of a pair of fields.  On line 103 the guarded pair
and the read pair differ, which is why both are parameters. -/
def cmpPair (g1 g2 : AgedField Int) (r1 r2 : AgedField Int) (thr : Nat) :
    Except Unit Bool :=
  if g1.Valid && g2.Valid then
    match r1.val, r2.val with
    | some x, some y => .ok (decide (thr ≤ (x - y).natAbs))
    | _, _ => .error ()
  else
    .ok false

/-- The changed flag, src/faup978_reporter.cc lines 101-109.  Line 103 guards
on the geometric-altitude pair but reads the pressure-altitude pair. -/
def computeChanged (ls a : AircraftState) : Except Unit Bool :=
  match cmpPair ls.pressure_altitude a.pressure_altitude
      ls.pressure_altitude a.pressure_altitude 50 with
  | .error e => .error e
  | .ok c1 =>
  match cmpPair ls.geometric_altitude a.geometric_altitude
      ls.pressure_altitude a.pressure_altitude 50 with
  | .error e => .error e
  | .ok c2 =>
  match cmpPair ls.vertical_velocity_barometric a.vertical_velocity_barometric
      ls.vertical_velocity_barometric a.vertical_velocity_barometric 500 with
  | .error e => .error e
  | .ok c3 =>
  match cmpPair ls.vertical_velocity_geometric a.vertical_velocity_geometric
      ls.vertical_velocity_geometric a.vertical_velocity_geometric 500 with
  | .error e => .error e
  | .ok c4 =>
  match cmpPair ls.true_track a.true_track ls.true_track a.true_track 2 with
  | .error e => .error e
  | .ok c5 =>
  match cmpPair ls.true_heading a.true_heading ls.true_heading a.true_heading 2 with
  | .error e => .error e
  | .ok c6 =>
  match cmpPair ls.magnetic_heading a.magnetic_heading
      ls.magnetic_heading a.magnetic_heading 2 with
  | .error e => .error e
  | .ok c7 =>
  match cmpPair ls.ground_speed a.ground_speed ls.ground_speed a.ground_speed 25 with
  | .error e => .error e
  | .ok c8 =>
  .ok (c1 || c2 || c3 || c4 || c5 || c6 || c7 || c8)

/-- The immediate flag, src/faup978_reporter.cc lines 111-120. -/
def computeImmediate (a : AircraftState) (rt : Nat) : Bool :=
  decide (rt < a.selected_altitude_mcp.changed)
    || decide (rt < a.selected_altitude_fms.changed)
    || decide (rt < a.selected_heading.changed)
    || decide (rt < a.mode_indicators.changed)
    || decide (rt < a.barometric_pressure_setting.changed)
    || decide (rt < a.callsign.changed)
    || decide (rt < a.flightplan_id.changed)
    || decide (rt < a.airground_state.changed)
    || decide (rt < a.emergency.changed)

/-- Flight-phase altitude hint, src/faup978_reporter.cc lines 122-128: the
freshness window is checked, validity is not. -/
def deriveAltitude (a : AircraftState) (now : Nat) : Except Unit (Option Int) :=
  if a.pressure_altitude.UpdateAge now < 30000 then
    match a.pressure_altitude.val with
    | some v => .ok (some v)
    | none => .error ()
  else if a.geometric_altitude.UpdateAge now < 30000 then
    match a.geometric_altitude.val with
    | some v => .ok (some v)
    | none => .error ()
  else
    .ok none

/-- Flight-phase air/ground hint, src/faup978_reporter.cc lines 130-134. -/
def deriveAirground (a : AircraftState) (now : Nat) :
    Except Unit (Option AirGroundState) :=
  if a.airground_state.UpdateAge now < 30000 then
    match a.airground_state.val with
    | some v => .ok (some v)
    | none => .error ()
  else
    .ok none

/-- Flight-phase ground-speed hint, src/faup978_reporter.cc lines 136-140. -/
def deriveGroundspeed (a : AircraftState) (now : Nat) : Except Unit (Option Int) :=
  if a.ground_speed.UpdateAge now < 30000 then
    match a.ground_speed.val with
    | some v => .ok (some v)
    | none => .error ()
  else
    .ok none

/-- boost::optional comparison: present and below the bound. -/
def optLt (o : Option Int) (k : Int) : Bool :=
  match o with
  | some v => decide (v < k)
  | none => false

/-- boost::optional comparison: absent, or below the bound. -/
def optNoneOrLt (o : Option Int) (k : Int) : Bool :=
  match o with
  | some v => decide (v < k)
  | none => true

/-- Minimum report interval, src/faup978_reporter.cc lines 142-161. -/
def computeMinAge (immediate : Bool) (airground : Option AirGroundState)
    (altitude groundspeed : Option Int) (changed : Bool) : Nat :=
  if immediate then 0
  else if airground = some AirGroundState.ON_GROUND then 1000
  else if optLt altitude 500 && optNoneOrLt groundspeed 200 then 1000
  else if optLt groundspeed 100 && optNoneOrLt altitude 1000 then 1000
  else if optNoneOrLt altitude 10000 then (if changed then 5000 else 10000)
  else (if changed then 10000 else 30000)

/-- Source-preference gate, src/faup978_reporter.cc lines 91-99: a TIS-B ICAO
key is inhibited when the sibling direct ADS-B key has been actively
reported. -/
def tisbSuppressed (a : AircraftState) (l : Ledger) : Bool :=
  decide (a.address_qualifier = .TISB_ICAO)
    && (match Ledger.find? l (AddressQualifier.ADSB_ICAO, a.address) with
        | some r => decide (0 < r.report_time)
        | none => false)

/-- Freshness-age and source-letter suffix appended by the aged emitters,
src/faup978_reporter.cc lines 196 and 205. -/
def agedSuffix {α : Type} (f : AgedField α) (now : Nat) (source : String) : String :=
  " " ++ toString (f.UpdateAge now / 1000) ++ " " ++ source

/-- add_slow_field, src/faup978_reporter.cc lines 184-190. -/
def add_slow_field {α : Type} (force_slow : Bool) (rt : Nat) (k : String)
    (f : AgedField α) (str : α → String) : List (String × String) :=
  match f.val with
  | some v => if force_slow || decide (rt < f.changed) then [(k, str v)] else []
  | none => []

/-- add_slow_aged_field, src/faup978_reporter.cc lines 192-199. -/
def add_slow_aged_field {α : Type} (force_slow : Bool) (rt now : Nat)
    (source k : String) (f : AgedField α) (str : α → String) :
    List (String × String) :=
  match f.val with
  | some v =>
    if force_slow || decide (rt < f.changed) then
      [(k, str v ++ agedSuffix f now source)]
    else []
  | none => []

/-- add_aged_field, src/faup978_reporter.cc lines 201-208. -/
def add_aged_field {α : Type} (rt now : Nat) (source k : String)
    (f : AgedField α) (str : α → String) : List (String × String) :=
  match f.val with
  | some v =>
    if decide (rt < f.updated) then
      [(k, str v ++ agedSuffix f now source)]
    else []
  | none => []

/-- Field selection, src/faup978_reporter.cc lines 210-291, in source order. -/
def selectFields (a : AircraftState) (rt now : Nat) (force_slow : Bool)
    (source : String) : List (String × String) :=
  add_slow_field force_slow rt "uat_version" a.mops_version (fun v => toString v)
  ++ (add_slow_field force_slow rt "category" a.emitter_category
        (fun v => twoHexU (160 + v % 8 + Nat.land v 24 * 2))
  ++ (add_slow_aged_field force_slow rt now source "nac_p" a.nac_p (fun v => toString v)
  ++ (add_slow_aged_field force_slow rt now source "nac_v" a.nac_v (fun v => toString v)
  ++ (add_slow_aged_field force_slow rt now source "sil" a.sil (fun v => toString v)
  ++ (add_slow_aged_field force_slow rt now source "sil_type" a.sil_supplement
        (fun v => silSupplementLabel v)
  ++ (add_slow_aged_field force_slow rt now source "nic_baro" a.nic_baro
        (fun v => toString v)
  ++ (add_aged_field rt now source "airGround" a.airground_state
        (fun v => airGroundLabel v)
  ++ (add_aged_field rt now source "squawk" a.flightplan_id
        (fun v => "\x7b" ++ v ++ "\x7d")
  ++ (add_aged_field rt now source "ident" a.callsign
        (fun v => "\x7b" ++ v ++ "\x7d")
  ++ (add_aged_field rt now source "alt" a.pressure_altitude (fun v => toString v)
  ++ (add_aged_field rt now source "position" a.position
        (fun p => "\x7b" ++ toString p.1 ++ " " ++ toString p.2 ++ " "
          ++ toString (match a.nic.val with | some n => n | none => 0) ++ " "
          ++ toString (match a.horizontal_containment.val with | some r => r | none => 0)
          ++ "\x7d")
  ++ (add_aged_field rt now source "alt_gnss" a.geometric_altitude (fun v => toString v)
  ++ (add_aged_field rt now source "vrate" a.vertical_velocity_barometric
        (fun v => toString v)
  ++ (add_aged_field rt now source "vrate_geom" a.vertical_velocity_geometric
        (fun v => toString v)
  ++ (add_aged_field rt now source "speed" a.ground_speed (fun v => toString v)
  ++ (add_aged_field rt now source "track" a.true_track (fun v => toString v)
  ++ (add_aged_field rt now source "heading_magnetic" a.magnetic_heading
        (fun v => toString v)
  ++ (add_aged_field rt now source "heading_true" a.true_heading (fun v => toString v)
  ++ (add_aged_field rt now source "nav_alt_mcp" a.selected_altitude_mcp
        (fun v => toString v)
  ++ (add_aged_field rt now source "nav_alt_fms" a.selected_altitude_fms
        (fun v => toString v)
  ++ (add_aged_field rt now source "nav_heading" a.selected_heading
        (fun v => toString v)
  ++ (add_aged_field rt now source "nav_modes" a.mode_indicators
        (fun v => modeLabel v)
  ++ (add_aged_field rt now source "nav_qnh" a.barometric_pressure_setting
        (fun v => toString v)
  ++ add_aged_field rt now source "emergency" a.emergency
        (fun v => emergencyLabel v))))))))))))))))))))))))

/-- One emitted line, src/faup978_reporter.cc lines 299-323: clock seconds,
hexid versus otherid, address, optional addrtype segment, selected fields. -/
structure ReportLine where
  clock : Nat
  icao : Bool
  address : Nat
  addrtype : Option String
  fields : List (String × String)
deriving DecidableEq, Repr

/-- Line construction and empty-report suppression, src/faup978_reporter.cc
lines 293-323. -/
def buildLine (a : AircraftState) (rt now : Nat) (force_slow : Bool) :
    Option ReportLine :=
  let kv := selectFields a rt now force_slow (sourceOf a.address_qualifier)
  if kv = [] then none
  else
    some { clock := now / 1000
           icao := isIcao a.address_qualifier
           address := a.address
           addrtype :=
             if force_slow || !isIcao a.address_qualifier then
               some (qualifierName a.address_qualifier)
             else none
           fields := kv }

/-- The evaluation after the no-new-data and source-preference gates,
src/faup978_reporter.cc lines 101-328. -/
def reportBody (key : AddressKey) (a : AircraftState) (now : Nat) (l1 : Ledger)
    (record : ReportRecord) : Except Unit (Ledger × Option ReportLine) :=
  match computeChanged record.report_state a with
  | .error e => .error e
  | .ok changed =>
  match deriveAltitude a now with
  | .error e => .error e
  | .ok altitude =>
  match deriveAirground a now with
  | .error e => .error e
  | .ok airground =>
  match deriveGroundspeed a now with
  | .error e => .error e
  | .ok groundspeed =>
  let immediate := computeImmediate a record.report_time
  let minAge := computeMinAge immediate airground altitude groundspeed changed
  let force_slow : Bool := decide (300000 < sub64 now record.slow_report_time)
  if sub64 now record.report_time < minAge then .ok (l1, none)
  else
    match buildLine a record.report_time now force_slow with
    | none => .ok (l1, none)
    | some line =>
      .ok (Ledger.set l1 key
            { report_time := now
              slow_report_time := if force_slow then now else record.slow_report_time
              report_state := a }, some line)

/-- ReportOneAircraft, src/faup978_reporter.cc lines 77-329.  The check of
aircraft.messages on line 81 has an empty body in the source and is omitted.
operator[] on line 78 inserts a zero-initialised record for a new key. -/
def reportOneAircraft (key : AddressKey) (a : AircraftState) (now : Nat)
    (ledger : Ledger) : Except Unit (Ledger × Option ReportLine) :=
  let record := (Ledger.find? ledger key).getD ReportRecord.init
  let l1 := Ledger.set ledger key record
  if a.last_message_time ≤ record.report_time then .ok (l1, none)
  else if tisbSuppressed a l1 then
    .ok (Ledger.set l1 key { record with report_time := 0, slow_report_time := 0 },
         none)
  else reportBody key a now l1 record

/-- True when the evaluation emits a line. -/
def emits (key : AddressKey) (a : AircraftState) (now : Nat) (ledger : Ledger) :
    Bool :=
  match reportOneAircraft key a now ledger with
  | .ok (_, some _) => true
  | _ => false

/-- The ledger after one evaluation (unchanged on the error path). -/
def stepLedger (key : AddressKey) (a : AircraftState) (now : Nat)
    (ledger : Ledger) : Ledger :=
  match reportOneAircraft key a now ledger with
  | .ok (l, _) => l
  | .error _ => ledger

/-- The ledger purge, src/faup978_reporter.cc lines 30-37: after the Tracker
has purged its own store, every ledger entry whose key is absent from the
Tracker enumeration (the alive list) is erased. -/
def purgeLedger (l : Ledger) (alive : List AddressKey) : Ledger :=
  l.filter (fun e => decide (e.1 ∈ alive))

/-- Sufficient conditions for the evaluation to perform no unguarded read of
an unset field: the line-103 pressure-altitude reads are backed by valid
fields whenever the geometric-altitude guard passes, and each 30-second
freshness window only passes for fields that have been set. -/
def safeEval (ls a : AircraftState) (now : Nat) : Bool :=
  (!(ls.geometric_altitude.Valid && a.geometric_altitude.Valid)
      || (ls.pressure_altitude.Valid && a.pressure_altitude.Valid))
  && (!decide (a.pressure_altitude.UpdateAge now < 30000) || a.pressure_altitude.Valid)
  && (!decide (a.geometric_altitude.UpdateAge now < 30000) || a.geometric_altitude.Valid)
  && (!decide (a.airground_state.UpdateAge now < 30000) || a.airground_state.Valid)
  && (!decide (a.ground_speed.UpdateAge now < 30000) || a.ground_speed.Valid)

/-! Concrete states used to evaluate the algorithm on explicit inputs. -/

/-- Baseline reported state for the change-detection scenario: pressure
altitude 2000, geometric altitude 1000, both valid. -/
def c1base : AircraftState :=
  { pressure_altitude := { val := some 2000, updated := 10, changed := 10 }
    geometric_altitude := { val := some 1000, updated := 10, changed := 10 } }

/-- Current state for the change-detection scenario: pressure altitude
unchanged, geometric altitude moved by 100 feet. -/
def c1a : AircraftState :=
  { pressure_altitude := { val := some 2000, updated := 20, changed := 10 }
    geometric_altitude := { val := some 1100, updated := 20, changed := 20 } }

/-- A cruising aircraft: airborne, pressure altitude 35000, ground speed 450,
fresh data at 1005000 ms, values identical to the reported baseline. -/
def cruiser : AircraftState :=
  { pressure_altitude := { val := some 35000, updated := 1005000, changed := 500000 }
    airground_state := { val := some .AIRBORNE_SUBSONIC, updated := 1005000, changed := 500000 }
    ground_speed := { val := some 450, updated := 1005000, changed := 500000 }
    last_message_time := 1005000
    address_qualifier := .ADSB_ICAO
    address := 123456 }

/-- Ledger key of the cruising aircraft. -/
def kC : AddressKey := (.ADSB_ICAO, 123456)

/-- Ledger for the cruising aircraft: last report at 1000000 ms with the same
field values, so nothing has changed since. -/
def ledgerC : Ledger :=
  [(kC, { report_time := 1000000, slow_report_time := 1000000, report_state := cruiser })]

/-- Baseline with only the geometric altitude valid. -/
def c3base : AircraftState :=
  { geometric_altitude := { val := some 500, updated := 40, changed := 40 } }

/-- Current state with only the geometric altitude valid: realistic for an
aircraft that broadcasts geometric but not barometric altitude. -/
def c3a : AircraftState :=
  { geometric_altitude := { val := some 1000, updated := 90000, changed := 90000 }
    last_message_time := 90000 }

/-- Key for the invalid-read scenario. -/
def c3key : AddressKey := (.ADSB_ICAO, 0)

/-- Ledger for the invalid-read scenario. -/
def c3ledger : Ledger :=
  [(c3key, { report_time := 50, slow_report_time := 0, report_state := c3base })]

/-- An aircraft whose only event since the last report is a callsign change at
2000 ms. -/
def exA : AircraftState :=
  { callsign := { val := some "TEST", updated := 2000, changed := 2000 }
    last_message_time := 2000 }

/-- Key for the callsign-change aircraft. -/
def exK : AddressKey := (.ADSB_ICAO, 0)

/-- A TIS-B ICAO aircraft at address 0xABCDEF with new data. -/
def a4 : AircraftState :=
  { address_qualifier := .TISB_ICAO, address := 11259375, last_message_time := 7 }

/-- The TIS-B key for address 0xABCDEF. -/
def k4 : AddressKey := (.TISB_ICAO, 11259375)

/-- Ledger holding an actively reported sibling ADS-B record for 0xABCDEF. -/
def ledger4 : Ledger := [((.ADSB_ICAO, 11259375), { report_time := 5 })]

/-- An aircraft with every slow field valid, all set at 10000 ms. -/
def a7 : AircraftState :=
  { mops_version := { val := some 2, updated := 10000, changed := 10000 }
    emitter_category := { val := some 1, updated := 10000, changed := 10000 }
    nac_p := { val := some 8, updated := 10000, changed := 10000 }
    nac_v := { val := some 2, updated := 10000, changed := 10000 }
    sil := { val := some 3, updated := 10000, changed := 10000 }
    sil_supplement := { val := some .PER_HOUR, updated := 10000, changed := 10000 }
    nic_baro := { val := some 1, updated := 10000, changed := 10000 } }

/-- The line built for a7 at now = 10000 with force_slow set. -/
def line7 : ReportLine :=
  { clock := 10
    icao := true
    address := 0
    addrtype := some "adsb_icao"
    fields := [("uat_version", "2"), ("category", "A1"), ("nac_p", "8 0 A"),
               ("nac_v", "2 0 A"), ("sil", "3 0 A"), ("sil_type", "perhour 0 A"),
               ("nic_baro", "1 0 A")] }

/-- An aircraft with new data but no valid field at all: field selection is
empty. -/
def a8 : AircraftState := { last_message_time := 500000, address := 1 }

/-- Key for the empty-selection aircraft. -/
def k8 : AddressKey := (.ADSB_ICAO, 1)

/-- An aircraft whose air/ground state is ON_GROUND, set at 500 ms. -/
def aG : AircraftState :=
  { airground_state := { val := some .ON_GROUND, updated := 500, changed := 500 } }

/-- A key that stays in the Tracker enumeration. -/
def kW : AddressKey := (.ADSB_ICAO, 42)

/-- A key that ages out of the Tracker enumeration. -/
def kX : AddressKey := (.TISB_TRACKFILE, 99)

/-! Ledger lemmas. -/

theorem Ledger.find?_set_self (l : Ledger) (k : AddressKey) (r : ReportRecord) :
    Ledger.find? (Ledger.set l k r) k = some r := by
  induction l with
  | nil => simp [Ledger.set, Ledger.find?]
  | cons hd t ih =>
    obtain ⟨k2, r2⟩ := hd
    by_cases hk : k2 = k
    · simp [Ledger.set, hk, Ledger.find?]
    · simp [Ledger.set, hk, Ledger.find?, ih]

theorem Ledger.find?_set_ne (l : Ledger) (k k2 : AddressKey) (r : ReportRecord)
    (h : k ≠ k2) :
    Ledger.find? (Ledger.set l k r) k2 = Ledger.find? l k2 := by
  induction l with
  | nil => simp [Ledger.set, Ledger.find?, h]
  | cons hd t ih =>
    obtain ⟨k3, r3⟩ := hd
    by_cases hk : k3 = k
    · subst hk
      simp [Ledger.set, Ledger.find?, h]
    · by_cases hk2 : k3 = k2
      · subst hk2
        simp [Ledger.set, hk, Ledger.find?]
      · simp [Ledger.set, hk, Ledger.find?, hk2, ih]

theorem Ledger.set_find?_self (l : Ledger) (k : AddressKey) (r : ReportRecord)
    (h : Ledger.find? l k = some r) : Ledger.set l k r = l := by
  induction l with
  | nil => simp [Ledger.find?] at h
  | cons hd t ih =>
    obtain ⟨k2, r2⟩ := hd
    by_cases hk : k2 = k
    · subst hk
      simp [Ledger.find?] at h
      simp [Ledger.set, h]
    · simp [Ledger.find?, hk] at h
      simp [Ledger.set, hk, ih h]

/-! Error-freedom machinery: sufficient conditions for every guarded and
unguarded read of the evaluation to hit a set field. -/

lemma bool_imp_of_or (x y : Bool) (h : (!x || y) = true) : x = true → y = true := by
  cases x <;> cases y <;> simp_all

lemma safeEval_parts (ls a : AircraftState) (now : Nat)
    (h : safeEval ls a now = true) :
    ((ls.geometric_altitude.Valid && a.geometric_altitude.Valid) = true →
      (ls.pressure_altitude.Valid && a.pressure_altitude.Valid) = true)
    ∧ (a.pressure_altitude.UpdateAge now < 30000 → a.pressure_altitude.Valid = true)
    ∧ (a.geometric_altitude.UpdateAge now < 30000 → a.geometric_altitude.Valid = true)
    ∧ (a.airground_state.UpdateAge now < 30000 → a.airground_state.Valid = true)
    ∧ (a.ground_speed.UpdateAge now < 30000 → a.ground_speed.Valid = true) := by
  unfold safeEval at h
  simp only [Bool.and_eq_true] at h
  obtain ⟨⟨⟨⟨h1, h2⟩, h3⟩, h4⟩, h5⟩ := h
  exact ⟨bool_imp_of_or _ _ h1,
    fun hc => bool_imp_of_or _ _ h2 (decide_eq_true hc),
    fun hc => bool_imp_of_or _ _ h3 (decide_eq_true hc),
    fun hc => bool_imp_of_or _ _ h4 (decide_eq_true hc),
    fun hc => bool_imp_of_or _ _ h5 (decide_eq_true hc)⟩

lemma cmpPair_isOk (g1 g2 r1 r2 : AgedField Int) (t : Nat)
    (h : (g1.Valid && g2.Valid) = true → (r1.Valid && r2.Valid) = true) :
    ∃ b, cmpPair g1 g2 r1 r2 t = .ok b := by
  unfold cmpPair
  by_cases hg : (g1.Valid && g2.Valid) = true
  · rw [if_pos hg]
    have hr := h hg
    simp only [Bool.and_eq_true, AgedField.Valid, Option.isSome_iff_exists] at hr
    obtain ⟨⟨x, hx⟩, ⟨y, hy⟩⟩ := hr
    rw [hx, hy]
    exact ⟨_, rfl⟩
  · rw [if_neg hg]
    exact ⟨false, rfl⟩

lemma computeChanged_isOk (ls a : AircraftState)
    (h : (ls.geometric_altitude.Valid && a.geometric_altitude.Valid) = true →
      (ls.pressure_altitude.Valid && a.pressure_altitude.Valid) = true) :
    ∃ c, computeChanged ls a = .ok c := by
  obtain ⟨b1, h1⟩ := cmpPair_isOk ls.pressure_altitude a.pressure_altitude
    ls.pressure_altitude a.pressure_altitude 50 (fun hh => hh)
  obtain ⟨b2, h2⟩ := cmpPair_isOk ls.geometric_altitude a.geometric_altitude
    ls.pressure_altitude a.pressure_altitude 50 h
  obtain ⟨b3, h3⟩ := cmpPair_isOk ls.vertical_velocity_barometric
    a.vertical_velocity_barometric ls.vertical_velocity_barometric
    a.vertical_velocity_barometric 500 (fun hh => hh)
  obtain ⟨b4, h4⟩ := cmpPair_isOk ls.vertical_velocity_geometric
    a.vertical_velocity_geometric ls.vertical_velocity_geometric
    a.vertical_velocity_geometric 500 (fun hh => hh)
  obtain ⟨b5, h5⟩ := cmpPair_isOk ls.true_track a.true_track ls.true_track
    a.true_track 2 (fun hh => hh)
  obtain ⟨b6, h6⟩ := cmpPair_isOk ls.true_heading a.true_heading ls.true_heading
    a.true_heading 2 (fun hh => hh)
  obtain ⟨b7, h7⟩ := cmpPair_isOk ls.magnetic_heading a.magnetic_heading
    ls.magnetic_heading a.magnetic_heading 2 (fun hh => hh)
  obtain ⟨b8, h8⟩ := cmpPair_isOk ls.ground_speed a.ground_speed ls.ground_speed
    a.ground_speed 25 (fun hh => hh)
  refine ⟨b1 || b2 || b3 || b4 || b5 || b6 || b7 || b8, ?_⟩
  simp [computeChanged, h1, h2, h3, h4, h5, h6, h7, h8]

lemma deriveAltitude_isOk (a : AircraftState) (now : Nat)
    (hp : a.pressure_altitude.UpdateAge now < 30000 → a.pressure_altitude.Valid = true)
    (hg : a.geometric_altitude.UpdateAge now < 30000 → a.geometric_altitude.Valid = true) :
    ∃ x, deriveAltitude a now = .ok x := by
  unfold deriveAltitude
  by_cases h1 : a.pressure_altitude.UpdateAge now < 30000
  · rw [if_pos h1]
    obtain ⟨v, hv⟩ := Option.isSome_iff_exists.mp (hp h1)
    rw [hv]
    exact ⟨_, rfl⟩
  · rw [if_neg h1]
    by_cases h2 : a.geometric_altitude.UpdateAge now < 30000
    · rw [if_pos h2]
      obtain ⟨v, hv⟩ := Option.isSome_iff_exists.mp (hg h2)
      rw [hv]
      exact ⟨_, rfl⟩
    · rw [if_neg h2]
      exact ⟨none, rfl⟩

lemma deriveAirground_isOk (a : AircraftState) (now : Nat)
    (hv : a.airground_state.UpdateAge now < 30000 → a.airground_state.Valid = true) :
    ∃ x, deriveAirground a now = .ok x := by
  unfold deriveAirground
  by_cases h1 : a.airground_state.UpdateAge now < 30000
  · rw [if_pos h1]
    obtain ⟨v, hv2⟩ := Option.isSome_iff_exists.mp (hv h1)
    rw [hv2]
    exact ⟨_, rfl⟩
  · rw [if_neg h1]
    exact ⟨none, rfl⟩

lemma deriveGroundspeed_isOk (a : AircraftState) (now : Nat)
    (hv : a.ground_speed.UpdateAge now < 30000 → a.ground_speed.Valid = true) :
    ∃ x, deriveGroundspeed a now = .ok x := by
  unfold deriveGroundspeed
  by_cases h1 : a.ground_speed.UpdateAge now < 30000
  · rw [if_pos h1]
    obtain ⟨v, hv2⟩ := Option.isSome_iff_exists.mp (hv h1)
    rw [hv2]
    exact ⟨_, rfl⟩
  · rw [if_neg h1]
    exact ⟨none, rfl⟩

/-! Claim theorems. -/

/-- C1: the claim says the geometric-altitude change comparison compares the
two geometric-altitude values.  The code compares the pressure-altitude
values under the geometric-altitude validity guard: on a state pair whose
geometric altitudes are valid and differ by 100 while the pressure altitudes
are valid and equal, the changed flag stays false, although the comparison the
claim (and spec section 9) describes as intended would report a change. -/
theorem changed_geometric_compares_pressure :
    computeChanged c1base c1a = .ok false
      ∧ cmpPair c1base.geometric_altitude c1a.geometric_altitude
          c1base.geometric_altitude c1a.geometric_altitude 50 = .ok true := by
  constructor
  · rfl
  · rfl

/-- C2 counterexample: for the cruising aircraft with unchanged fields, the
evaluation 11000 ms after the last report does not emit, contrary to the
claim. -/
theorem cruise_rate_gate_counterexample :
    emits kC cruiser 1011000 ledgerC = false := by rfl

/-- C2 amended: the unchanged-high-altitude branch yields minAge = 30000 ms,
so for the cruising aircraft both the evaluation 9000 ms and the evaluation
11000 ms after the last report are suppressed by the rate gate, and the
evaluation 30000 ms after the last report emits. -/
theorem cruise_rate_gate_amended :
    emits kC cruiser 1009000 ledgerC = false
      ∧ emits kC cruiser 1011000 ledgerC = false
      ∧ emits kC cruiser 1030000 ledgerC = true := by
  refine ⟨rfl, rfl, rfl⟩

/-- C3 counterexample: on an aircraft that broadcasts only geometric altitude
(geometric valid in both the baseline and the current state, pressure never
set), the change-detection comparison on source line 103 reads the value of
the unset pressure-altitude field, so the evaluation reaches the
invalid-field-read error condition. -/
theorem valid_before_value_counterexample :
    reportOneAircraft c3key c3a 100000 c3ledger = .error () := by rfl

/-- C3 amended: the invalid-field-read error condition is unreachable for
every evaluation in which (a) the pressure altitudes of the baseline and of
the current state are valid whenever both geometric altitudes are (the
comparison on source line 103 reads the pressure pair under the geometric
guard), and (b) each 30-second freshness window of the flight-phase
derivation only passes for fields that have been set; without these side
conditions the error is reachable, as the counterexample shows. -/
theorem valid_before_value_amended (key : AddressKey) (a : AircraftState)
    (now : Nat) (ledger : Ledger)
    (h : safeEval ((Ledger.find? ledger key).getD ReportRecord.init).report_state
          a now = true) :
    ∃ r, reportOneAircraft key a now ledger = .ok r := by
  obtain ⟨h1, h2, h3, h4, h5⟩ := safeEval_parts _ _ _ h
  simp only [reportOneAircraft]
  by_cases g1 : a.last_message_time ≤
      ((Ledger.find? ledger key).getD ReportRecord.init).report_time
  · rw [if_pos g1]
    exact ⟨_, rfl⟩
  · rw [if_neg g1]
    by_cases g2 : tisbSuppressed a
        (Ledger.set ledger key ((Ledger.find? ledger key).getD ReportRecord.init)) = true
    · rw [if_pos g2]
      exact ⟨_, rfl⟩
    · rw [if_neg g2]
      obtain ⟨c, hc⟩ := computeChanged_isOk _ _ h1
      obtain ⟨alt, ha⟩ := deriveAltitude_isOk _ _ h2 h3
      obtain ⟨ag, hag⟩ := deriveAirground_isOk _ _ h4
      obtain ⟨gs, hgs⟩ := deriveGroundspeed_isOk _ _ h5
      simp only [reportBody, hc, ha, hag, hgs]
      split
      · exact ⟨_, rfl⟩
      · split
        · exact ⟨_, rfl⟩
        · exact ⟨_, rfl⟩

/-- C3 witness: a concrete evaluation satisfying the safety conditions
completes without the error. -/
theorem valid_before_value_witness :
    safeEval ((Ledger.find? ([] : Ledger) exK).getD ReportRecord.init).report_state
      exA 50000 = true
    ∧ ∃ r, reportOneAircraft exK exA 50000 [] = .ok r :=
  ⟨by decide, valid_before_value_amended exK exA 50000 [] (by decide)⟩

/-- C4: evaluating a TIS-B ICAO key with new data while the sibling direct
ADS-B record has been actively reported emits nothing and resets both
reporting times of the TIS-B record to zero. -/
theorem tisb_preference_suppression (key : AddressKey) (a : AircraftState)
    (now : Nat) (ledger : Ledger) (record : ReportRecord) (l1 : Ledger)
    (sib : ReportRecord)
    (hQ : a.address_qualifier = .TISB_ICAO)
    (hKey : key = (AddressQualifier.TISB_ICAO, a.address))
    (hRec : (Ledger.find? ledger key).getD ReportRecord.init = record)
    (hL1 : Ledger.set ledger key record = l1)
    (hNew : record.report_time < a.last_message_time)
    (hSib : Ledger.find? ledger (AddressQualifier.ADSB_ICAO, a.address) = some sib)
    (hPos : 0 < sib.report_time) :
    reportOneAircraft key a now ledger
      = .ok (Ledger.set l1 key
          { record with report_time := 0, slow_report_time := 0 }, none)
    ∧ Ledger.find? (Ledger.set l1 key
        { record with report_time := 0, slow_report_time := 0 }) key
      = some { record with report_time := 0, slow_report_time := 0 } := by
  have hkne : key ≠ (AddressQualifier.ADSB_ICAO, a.address) := by
    rw [hKey]
    simp
  have hts : tisbSuppressed a l1 = true := by
    unfold tisbSuppressed
    rw [← hL1, Ledger.find?_set_ne ledger key _ record hkne, hSib]
    simp [hQ, hPos]
  constructor
  · simp only [reportOneAircraft]
    rw [hRec, hL1, if_neg (not_le.mpr hNew), hts]
    simp
  · rw [Ledger.find?_set_self]

/-- C4 witness: the TIS-B entry for address 0xABCDEF is suppressed and its
record is zeroed when the sibling ADS-B record has report_time 5. -/
theorem tisb_preference_suppression_witness :
    0 < a4.last_message_time
    ∧ reportOneAircraft k4 a4 0 ledger4
        = .ok (Ledger.set (Ledger.set ledger4 k4 ReportRecord.init) k4
            { ReportRecord.init with report_time := 0, slow_report_time := 0 }, none)
    ∧ Ledger.find? (Ledger.set (Ledger.set ledger4 k4 ReportRecord.init) k4
        { ReportRecord.init with report_time := 0, slow_report_time := 0 }) k4
      = some { ReportRecord.init with report_time := 0, slow_report_time := 0 } := by
  have h := tisb_preference_suppression k4 a4 0 ledger4 ReportRecord.init
    (Ledger.set ledger4 k4 ReportRecord.init) { ReportRecord.init with report_time := 5 }
    rfl rfl rfl rfl (by decide) rfl (by decide)
  exact ⟨by decide, h.1, h.2⟩

/-- C8: when the no-new-data, source-preference and rate gates all pass but
field selection yields no entries, no line is emitted and the ledger record of
the key keeps its value (report_time, slow_report_time and report_state are
only rewritten on an actual emission). -/
theorem empty_report_suppression (key : AddressKey) (a : AircraftState)
    (now : Nat) (ledger : Ledger) (record : ReportRecord) (l1 : Ledger)
    (c : Bool) (alt gs : Option Int) (ag : Option AirGroundState)
    (hRec : (Ledger.find? ledger key).getD ReportRecord.init = record)
    (hL1 : Ledger.set ledger key record = l1)
    (hNew : record.report_time < a.last_message_time)
    (hTisb : tisbSuppressed a l1 = false)
    (hC : computeChanged record.report_state a = .ok c)
    (hA : deriveAltitude a now = .ok alt)
    (hG : deriveAirground a now = .ok ag)
    (hS : deriveGroundspeed a now = .ok gs)
    (hRate : ¬ sub64 now record.report_time <
      computeMinAge (computeImmediate a record.report_time) ag alt gs c)
    (hEmpty : selectFields a record.report_time now
      (decide (300000 < sub64 now record.slow_report_time))
      (sourceOf a.address_qualifier) = []) :
    reportOneAircraft key a now ledger = .ok (l1, none)
    ∧ Ledger.find? l1 key = some record := by
  constructor
  · simp only [reportOneAircraft]
    rw [hRec, hL1, if_neg (not_le.mpr hNew), hTisb]
    simp only [Bool.false_eq_true, if_false]
    simp only [reportBody, hC, hA, hG, hS]
    rw [if_neg hRate]
    simp only [buildLine]
    rw [hEmpty]
    simp
  · rw [← hL1, Ledger.find?_set_self]

/-- C8 witness: an aircraft with new data but no valid field passes every gate
at now = 1000000 yet emits nothing, and its freshly created ledger record is
untouched. -/
theorem empty_report_suppression_witness :
    0 < a8.last_message_time
    ∧ reportOneAircraft k8 a8 1000000 [] = .ok ([(k8, ReportRecord.init)], none)
    ∧ Ledger.find? [(k8, ReportRecord.init)] k8 = some ReportRecord.init := by
  have h := empty_report_suppression k8 a8 1000000 [] ReportRecord.init
    [(k8, ReportRecord.init)] false none none none rfl rfl (by decide) (by decide)
    rfl rfl rfl rfl (by decide) rfl
  exact ⟨by decide, h.1, h.2⟩

lemma selectFields_ne_nil_of_callsign (a : AircraftState) (rt now : Nat)
    (fs : Bool) (src : String)
    (hValid : a.callsign.val.isSome = true) (hUpd : rt < a.callsign.updated) :
    selectFields a rt now fs src ≠ [] := by
  obtain ⟨cs, hcs⟩ := Option.isSome_iff_exists.mp hValid
  have hmem : ("ident", "\x7b" ++ cs ++ "\x7d" ++ agedSuffix a.callsign now src)
      ∈ selectFields a rt now fs src := by
    unfold selectFields
    refine List.mem_append_right _ ?_
    refine List.mem_append_right _ ?_
    refine List.mem_append_right _ ?_
    refine List.mem_append_right _ ?_
    refine List.mem_append_right _ ?_
    refine List.mem_append_right _ ?_
    refine List.mem_append_right _ ?_
    refine List.mem_append_right _ ?_
    refine List.mem_append_right _ ?_
    refine List.mem_append_left _ ?_
    simp [add_aged_field, hcs, hUpd]
  exact List.ne_nil_of_mem hmem

/-- C5: any immediate-trigger field having changed after the last report
forces minAge = 0, and in particular a callsign change alone, with new data
present and the evaluation free of the invalid-read error, forces an emission
regardless of elapsed time and flight phase. -/
theorem immediate_trigger_forces_emission :
    (∀ (a : AircraftState) (rt : Nat) (ag : Option AirGroundState)
        (alt gs : Option Int) (ch : Bool),
      (rt < a.selected_altitude_mcp.changed ∨ rt < a.selected_altitude_fms.changed
        ∨ rt < a.selected_heading.changed ∨ rt < a.mode_indicators.changed
        ∨ rt < a.barometric_pressure_setting.changed ∨ rt < a.callsign.changed
        ∨ rt < a.flightplan_id.changed ∨ rt < a.airground_state.changed
        ∨ rt < a.emergency.changed) →
      computeMinAge (computeImmediate a rt) ag alt gs ch = 0)
    ∧ (∀ (key : AddressKey) (a : AircraftState) (now : Nat) (ledger : Ledger)
        (record : ReportRecord) (l1 : Ledger),
      (Ledger.find? ledger key).getD ReportRecord.init = record →
      Ledger.set ledger key record = l1 →
      record.report_time < a.last_message_time →
      tisbSuppressed a l1 = false →
      safeEval record.report_state a now = true →
      a.callsign.val.isSome = true →
      a.callsign.changed ≤ a.callsign.updated →
      record.report_time < a.callsign.changed →
      ∃ l2 line, reportOneAircraft key a now ledger = .ok (l2, some line)) := by
  constructor
  · intro a rt ag alt gs ch h
    have himm : computeImmediate a rt = true := by
      unfold computeImmediate
      rcases h with h|h|h|h|h|h|h|h|h <;> simp [h]
    rw [himm]
    simp [computeMinAge]
  · intro key a now ledger record l1 hRec hL1 hNew hTisb hSafe hValid hMono hCall
    obtain ⟨h1, h2, h3, h4, h5⟩ := safeEval_parts _ _ _ hSafe
    obtain ⟨c, hc⟩ := computeChanged_isOk _ _ h1
    obtain ⟨alt, ha⟩ := deriveAltitude_isOk _ _ h2 h3
    obtain ⟨ag, hag⟩ := deriveAirground_isOk _ _ h4
    obtain ⟨gs, hgs⟩ := deriveGroundspeed_isOk _ _ h5
    have himm : computeImmediate a record.report_time = true := by
      unfold computeImmediate
      simp [hCall]
    have hne := selectFields_ne_nil_of_callsign a record.report_time now
      (decide (300000 < sub64 now record.slow_report_time))
      (sourceOf a.address_qualifier) hValid (lt_of_lt_of_le hCall hMono)
    simp only [reportOneAircraft]
    rw [hRec, hL1, if_neg (not_le.mpr hNew), hTisb]
    simp only [Bool.false_eq_true, if_false]
    simp only [reportBody, hc, ha, hag, hgs, himm]
    simp only [computeMinAge, if_pos]
    rw [if_neg (Nat.not_lt_zero _)]
    simp only [buildLine]
    rw [if_neg hne]
    exact ⟨_, _, rfl⟩

/-- C5 witness: for the aircraft whose only event is a callsign change at
2000 ms, the immediate branch yields minAge 0 and the evaluation at 50000 ms
emits. -/
theorem immediate_trigger_forces_emission_witness :
    (0 : Nat) < exA.callsign.changed
    ∧ computeMinAge (computeImmediate exA 0) none none none false = 0
    ∧ ∃ l2 line, reportOneAircraft exK exA 50000 [] = .ok (l2, some line) := by
  refine ⟨by decide, ?_, ?_⟩
  · exact immediate_trigger_forces_emission.1 exA 0 none none none false
      (Or.inr (Or.inr (Or.inr (Or.inr (Or.inr (Or.inl (by decide)))))))
  · exact immediate_trigger_forces_emission.2 exK exA 50000 [] ReportRecord.init
      [(exK, ReportRecord.init)] rfl rfl (by decide) (by decide) (by decide)
      (by decide) (by decide) (by decide)

/-- C6: after a successful emission at time now, re-evaluating the same
aircraft at the same now is suppressed by the no-new-data gate (the emission
set report_time to now and last_message_time is at most now), and the ledger
is unchanged by the second evaluation. -/
theorem idempotent_suppression (key : AddressKey) (a : AircraftState)
    (now : Nat) (ledger : Ledger)
    (hEmit : emits key a now ledger = true)
    (hNow : a.last_message_time ≤ now) :
    reportOneAircraft key a now (stepLedger key a now ledger)
      = .ok (stepLedger key a now ledger, none) := by
  unfold emits at hEmit
  cases hr : reportOneAircraft key a now ledger with
  | error e => rw [hr] at hEmit; simp at hEmit
  | ok p =>
    obtain ⟨l, o⟩ := p
    rw [hr] at hEmit
    cases o with
    | none => simp at hEmit
    | some line =>
      have hstep : stepLedger key a now ledger = l := by
        unfold stepLedger
        rw [hr]
      have hr2 := hr
      simp only [reportOneAircraft] at hr2
      rw [hstep]
      split at hr2
      · simp at hr2
      · split at hr2
        · simp at hr2
        · simp only [reportBody] at hr2
          split at hr2
          · simp at hr2
          · split at hr2
            · simp at hr2
            · split at hr2
              · simp at hr2
              · split at hr2
                · simp at hr2
                · split at hr2
                  · simp at hr2
                  · split at hr2
                    · simp at hr2
                    · simp only [Except.ok.injEq, Prod.mk.injEq,
                        Option.some.injEq] at hr2
                      obtain ⟨hl, hline⟩ := hr2
                      have hfind : Ledger.find? l key
                          = some { report_time := now,
                                   slow_report_time :=
                                     if decide (300000 <
                                       sub64 now ((Ledger.find? ledger key).getD
                                         ReportRecord.init).slow_report_time) = true
                                     then now
                                     else ((Ledger.find? ledger key).getD
                                       ReportRecord.init).slow_report_time,
                                   report_state := a } := by
                        rw [← hl]
                        exact Ledger.find?_set_self _ _ _
                      simp only [reportOneAircraft, hfind, Option.getD_some]
                      rw [if_pos hNow]
                      rw [Ledger.set_find?_self l key _ hfind]

/-- C6 witness: the callsign-change aircraft emits at 50000 ms from an empty
ledger, and the immediate re-evaluation at the same instant is non-emitting
and leaves the ledger unchanged. -/
theorem idempotent_suppression_witness :
    emits exK exA 50000 [] = true
    ∧ reportOneAircraft exK exA 50000 (stepLedger exK exA 50000 [])
        = .ok (stepLedger exK exA 50000 [], none) :=
  ⟨by rfl, idempotent_suppression exK exA 50000 [] (by rfl) (by decide)⟩

lemma mem_map_fst_append_left (A B : List (String × String)) (k : String)
    (h : k ∈ A.map Prod.fst) : k ∈ (A ++ B).map Prod.fst := by
  simp only [List.map_append, List.mem_append]
  exact Or.inl h

lemma mem_map_fst_append_right (A B : List (String × String)) (k : String)
    (h : k ∈ B.map Prod.fst) : k ∈ (A ++ B).map Prod.fst := by
  simp only [List.map_append, List.mem_append]
  exact Or.inr h

lemma mem_map_fst_slow {α : Type} (fs : Bool) (rt : Nat) (k : String)
    (f : AgedField α) (str : α → String)
    (hv : f.val.isSome = true) (hfs : fs = true) :
    k ∈ (add_slow_field fs rt k f str).map Prod.fst := by
  obtain ⟨v, hv2⟩ := Option.isSome_iff_exists.mp hv
  simp [add_slow_field, hv2, hfs]

lemma mem_map_fst_slow_aged {α : Type} (fs : Bool) (rt now : Nat)
    (src k : String) (f : AgedField α) (str : α → String)
    (hv : f.val.isSome = true) (hfs : fs = true) :
    k ∈ (add_slow_aged_field fs rt now src k f str).map Prod.fst := by
  obtain ⟨v, hv2⟩ := Option.isSome_iff_exists.mp hv
  simp [add_slow_aged_field, hv2, hfs]

/-- C7: for every emitted line, the addrtype segment is present exactly when
force_slow holds or the qualifier is not an ICAO-addressed one; and under
force_slow every valid slow field (MOPS version, emitter category, NACp,
NACv, SIL, SIL supplement, NIC-baro) is included even if unchanged since the
last report. -/
theorem force_slow_full_refresh (a : AircraftState) (rt now : Nat) (fs : Bool)
    (line : ReportLine)
    (h : buildLine a rt now fs = some line) :
    line.addrtype.isSome = (fs || !isIcao a.address_qualifier)
    ∧ (fs = true →
        (a.mops_version.val.isSome = true →
          "uat_version" ∈ line.fields.map Prod.fst)
        ∧ (a.emitter_category.val.isSome = true →
          "category" ∈ line.fields.map Prod.fst)
        ∧ (a.nac_p.val.isSome = true → "nac_p" ∈ line.fields.map Prod.fst)
        ∧ (a.nac_v.val.isSome = true → "nac_v" ∈ line.fields.map Prod.fst)
        ∧ (a.sil.val.isSome = true → "sil" ∈ line.fields.map Prod.fst)
        ∧ (a.sil_supplement.val.isSome = true →
          "sil_type" ∈ line.fields.map Prod.fst)
        ∧ (a.nic_baro.val.isSome = true →
          "nic_baro" ∈ line.fields.map Prod.fst)) := by
  simp only [buildLine] at h
  by_cases hkv : selectFields a rt now fs (sourceOf a.address_qualifier) = []
  · rw [if_pos hkv] at h
    exact absurd h (by simp)
  · rw [if_neg hkv] at h
    simp only [Option.some.injEq] at h
    subst h
    constructor
    · cases hcond : (fs || !isIcao a.address_qualifier) with
      | true => simp [hcond]
      | false => simp [hcond]
    · intro hfs
      refine ⟨?_, ?_, ?_, ?_, ?_, ?_, ?_⟩
      · intro hv
        exact mem_map_fst_append_left _ _ _ (mem_map_fst_slow _ _ _ _ _ hv hfs)
      · intro hv
        refine mem_map_fst_append_right _ _ _ ?_
        exact mem_map_fst_append_left _ _ _ (mem_map_fst_slow _ _ _ _ _ hv hfs)
      · intro hv
        refine mem_map_fst_append_right _ _ _ ?_
        refine mem_map_fst_append_right _ _ _ ?_
        exact mem_map_fst_append_left _ _ _ (mem_map_fst_slow_aged _ _ _ _ _ _ _ hv hfs)
      · intro hv
        refine mem_map_fst_append_right _ _ _ ?_
        refine mem_map_fst_append_right _ _ _ ?_
        refine mem_map_fst_append_right _ _ _ ?_
        exact mem_map_fst_append_left _ _ _ (mem_map_fst_slow_aged _ _ _ _ _ _ _ hv hfs)
      · intro hv
        refine mem_map_fst_append_right _ _ _ ?_
        refine mem_map_fst_append_right _ _ _ ?_
        refine mem_map_fst_append_right _ _ _ ?_
        refine mem_map_fst_append_right _ _ _ ?_
        exact mem_map_fst_append_left _ _ _ (mem_map_fst_slow_aged _ _ _ _ _ _ _ hv hfs)
      · intro hv
        refine mem_map_fst_append_right _ _ _ ?_
        refine mem_map_fst_append_right _ _ _ ?_
        refine mem_map_fst_append_right _ _ _ ?_
        refine mem_map_fst_append_right _ _ _ ?_
        refine mem_map_fst_append_right _ _ _ ?_
        exact mem_map_fst_append_left _ _ _ (mem_map_fst_slow_aged _ _ _ _ _ _ _ hv hfs)
      · intro hv
        refine mem_map_fst_append_right _ _ _ ?_
        refine mem_map_fst_append_right _ _ _ ?_
        refine mem_map_fst_append_right _ _ _ ?_
        refine mem_map_fst_append_right _ _ _ ?_
        refine mem_map_fst_append_right _ _ _ ?_
        refine mem_map_fst_append_right _ _ _ ?_
        exact mem_map_fst_append_left _ _ _ (mem_map_fst_slow_aged _ _ _ _ _ _ _ hv hfs)

/-- C7 witness: the aircraft with all slow fields valid, evaluated with
force_slow, yields the expected line, whose fields include uat_version. -/
theorem force_slow_full_refresh_witness :
    buildLine a7 0 10000 true = some line7
    ∧ "uat_version" ∈ line7.fields.map Prod.fst :=
  ⟨by rfl,
    (((force_slow_full_refresh a7 0 10000 true line7 (by rfl)).2) rfl).1 (by rfl)⟩

lemma add_slow_field_key {α : Type} {fs : Bool} {rt : Nat} {k : String}
    {f : AgedField α} {str : α → String} {p : String × String}
    (h : p ∈ add_slow_field fs rt k f str) : p.1 = k := by
  rcases hv : f.val with _ | v
  · simp [add_slow_field, hv] at h
  · simp only [add_slow_field, hv] at h
    split at h
    · simp only [List.mem_singleton] at h
      simp [h]
    · simp at h

lemma add_slow_aged_field_key {α : Type} {fs : Bool} {rt now : Nat}
    {src k : String} {f : AgedField α} {str : α → String} {p : String × String}
    (h : p ∈ add_slow_aged_field fs rt now src k f str) : p.1 = k := by
  rcases hv : f.val with _ | v
  · simp [add_slow_aged_field, hv] at h
  · simp only [add_slow_aged_field, hv] at h
    split at h
    · simp only [List.mem_singleton] at h
      simp [h]
    · simp at h

lemma add_aged_field_key {α : Type} {rt now : Nat} {src k : String}
    {f : AgedField α} {str : α → String} {p : String × String}
    (h : p ∈ add_aged_field rt now src k f str) : p.1 = k := by
  rcases hv : f.val with _ | v
  · simp [add_aged_field, hv] at h
  · simp only [add_aged_field, hv] at h
    split at h
    · simp only [List.mem_singleton] at h
      simp [h]
    · simp at h

lemma add_aged_field_mem {α : Type} {rt now : Nat} {src k : String}
    {f : AgedField α} {str : α → String} {p : String × String}
    (h : p ∈ add_aged_field rt now src k f str) :
    p.1 = k ∧ ∃ v, f.val = some v ∧ p.2 = str v ++ agedSuffix f now src := by
  rcases hv : f.val with _ | v
  · simp [add_aged_field, hv] at h
  · simp only [add_aged_field, hv] at h
    split at h
    · simp only [List.mem_singleton] at h
      exact ⟨by simp [h], v, rfl, by simp [h]⟩
    · simp at h

/-- C10: every airGround entry of the field selection carries the label of
the airground_map, which sends each of AIRBORNE_SUBSONIC,
AIRBORNE_SUPERSONIC and ON_GROUND to the same string and everything else to
the question mark, so the emitted value never distinguishes an on-ground
aircraft from an airborne one. -/
theorem airground_label_mapping :
    (∀ (a : AircraftState) (rt now : Nat) (fs : Bool) (src v : String),
      ("airGround", v) ∈ selectFields a rt now fs src →
      ∃ g, a.airground_state.val = some g
        ∧ v = airGroundLabel g ++ agedSuffix a.airground_state now src)
    ∧ (∀ g : AirGroundState,
        airGroundLabel g =
          if g = .AIRBORNE_SUBSONIC ∨ g = .AIRBORNE_SUPERSONIC ∨ g = .ON_GROUND
          then "A+" else "?")
    ∧ airGroundLabel .ON_GROUND = airGroundLabel .AIRBORNE_SUBSONIC := by
  refine ⟨?_, ?_, rfl⟩
  · intro a rt now fs src v h
    simp only [selectFields, List.mem_append] at h
    rcases h with h|h|h|h|h|h|h|h|h|h|h|h|h|h|h|h|h|h|h|h|h|h|h|h|h
    · exact absurd (show ("airGround" : String) = "uat_version" from add_slow_field_key h) (by decide)
    · exact absurd (show ("airGround" : String) = "category" from add_slow_field_key h) (by decide)
    · exact absurd (show ("airGround" : String) = "nac_p" from add_slow_aged_field_key h) (by decide)
    · exact absurd (show ("airGround" : String) = "nac_v" from add_slow_aged_field_key h) (by decide)
    · exact absurd (show ("airGround" : String) = "sil" from add_slow_aged_field_key h) (by decide)
    · exact absurd (show ("airGround" : String) = "sil_type" from add_slow_aged_field_key h) (by decide)
    · exact absurd (show ("airGround" : String) = "nic_baro" from add_slow_aged_field_key h) (by decide)
    · obtain ⟨hk, g, hg, hv2⟩ := add_aged_field_mem h
      exact ⟨g, hg, hv2⟩
    · exact absurd (show ("airGround" : String) = "squawk" from add_aged_field_key h) (by decide)
    · exact absurd (show ("airGround" : String) = "ident" from add_aged_field_key h) (by decide)
    · exact absurd (show ("airGround" : String) = "alt" from add_aged_field_key h) (by decide)
    · exact absurd (show ("airGround" : String) = "position" from add_aged_field_key h) (by decide)
    · exact absurd (show ("airGround" : String) = "alt_gnss" from add_aged_field_key h) (by decide)
    · exact absurd (show ("airGround" : String) = "vrate" from add_aged_field_key h) (by decide)
    · exact absurd (show ("airGround" : String) = "vrate_geom" from add_aged_field_key h) (by decide)
    · exact absurd (show ("airGround" : String) = "speed" from add_aged_field_key h) (by decide)
    · exact absurd (show ("airGround" : String) = "track" from add_aged_field_key h) (by decide)
    · exact absurd (show ("airGround" : String) = "heading_magnetic" from add_aged_field_key h) (by decide)
    · exact absurd (show ("airGround" : String) = "heading_true" from add_aged_field_key h) (by decide)
    · exact absurd (show ("airGround" : String) = "nav_alt_mcp" from add_aged_field_key h) (by decide)
    · exact absurd (show ("airGround" : String) = "nav_alt_fms" from add_aged_field_key h) (by decide)
    · exact absurd (show ("airGround" : String) = "nav_heading" from add_aged_field_key h) (by decide)
    · exact absurd (show ("airGround" : String) = "nav_modes" from add_aged_field_key h) (by decide)
    · exact absurd (show ("airGround" : String) = "nav_qnh" from add_aged_field_key h) (by decide)
    · exact absurd (show ("airGround" : String) = "emergency" from add_aged_field_key h) (by decide)
  · intro g
    cases g <;> rfl

/-- C10 witness: the on-ground aircraft produces an airGround entry whose
value starts with the same label an airborne aircraft would get. -/
theorem airground_label_mapping_witness :
    ∃ g, aG.airground_state.val = some g
      ∧ "A+ 0 A" = airGroundLabel g ++ agedSuffix aG.airground_state 1000 "A" :=
  airground_label_mapping.1 aG 0 1000 false "A" "A+ 0 A" (by decide)

/-- C9: a purge firing keeps exactly the ledger entries whose key is in the
Tracker enumeration: an entry survives if and only if it was present and its
key is alive, so nothing is removed for any other reason. -/
theorem purge_exactness (l : Ledger) (alive : List AddressKey)
    (e : AddressKey × ReportRecord) :
    e ∈ purgeLedger l alive ↔ (e ∈ l ∧ e.1 ∈ alive) := by
  simp [purgeLedger, List.mem_filter]

/-- C9 witness: on a two-entry ledger where only the first key is still
enumerated by the Tracker, the first entry survives the purge. -/
theorem purge_exactness_witness :
    (kW, ReportRecord.init) ∈ purgeLedger
      [(kW, ReportRecord.init), (kX, ReportRecord.init)] [kW] :=
  (purge_exactness [(kW, ReportRecord.init), (kX, ReportRecord.init)] [kW]
    (kW, ReportRecord.init)).mpr ⟨by decide, by decide⟩

end Faup978
